import Mathlib

/-!
Verification of the retirement planning calculation module
(`calculations.py`).  The module is a deterministic pipeline of
closed-form financial formulas over Python floats; here it is embedded
shallowly over `ℚ`, with Python integer arithmetic embedded as `ℤ` and
the builtin `round` (banker's rounding, round-half-to-even) modelled
explicitly as `pyRound`.
-/

/-- Models Python round-half-to-even on a rational: nearest integer,
ties resolved to the even integer.  This is the behaviour of the
builtin `round` used by `round_to_clean_figure`. -/
def pyRound (q : ℚ) : ℤ :=
  if q - ⌊q⌋ < 1/2 then ⌊q⌋
  else if 1/2 < q - ⌊q⌋ then ⌊q⌋ + 1
  else if ⌊q⌋ % 2 = 0 then ⌊q⌋ else ⌊q⌋ + 1

/-- Models Python `str.lower()` by mapping ASCII lower-casing over the
characters of the string (the risk-profile keys are ASCII). -/
def str_lower (s : String) : String := ⟨s.data.map Char.toLower⟩

/-- Input data for retirement planning calculations
(dataclass `RetirementInputs`).  Python defaults (`life_expectancy=85`,
`inflation_rate=0.06`, ...) are supplied by callers and are not part of
the embedded record. -/
structure RetirementInputs where
  current_age : ℤ
  retirement_age : ℤ
  life_expectancy : ℤ
  current_annual_expenses : ℚ
  current_investments : ℚ
  current_annual_income : ℚ
  risk_profile : String
  dependents : String
  inflation_rate : ℚ
deriving Repr, DecidableEq

/-- Output of retirement planning calculations
(dataclass `RetirementResult`). -/
structure RetirementResult where
  current_age : ℤ
  retirement_age : ℤ
  life_expectancy : ℤ
  years_to_retirement : ℤ
  retirement_duration : ℤ
  current_annual_expenses : ℚ
  future_annual_expenses : ℚ
  corpus_required : ℚ
  future_investment_value : ℚ
  corpus_gap : ℚ
  monthly_savings_required : ℚ
  monthly_savings_rounded : ℚ
  expected_return_rate : ℚ
  inflation_rate : ℚ
  risk_profile : String
  current_annual_income : ℚ
  dependents : String
  income_expense_flag : Bool
  assumptions : List String
deriving Repr, DecidableEq

/-- Maps risk profile to expected annual return rate
(`get_return_rate`): conservative 0.08, moderate/balanced 0.12,
aggressive 0.15, anything else 0.12 (the dictionary `.get` default). -/
def get_return_rate (risk_profile : String) : ℚ :=
  if str_lower risk_profile = "conservative" then 8/100
  else if str_lower risk_profile = "moderate" then 12/100
  else if str_lower risk_profile = "balanced" then 12/100
  else if str_lower risk_profile = "aggressive" then 15/100
  else 12/100

/-- Future value by compound interest (`calculate_future_value`):
returns `pv` unchanged when `years <= 0`, else `pv * (1+rate)^years`. -/
def calculate_future_value (present_value : ℚ) (rate : ℚ) (years : ℤ) : ℚ :=
  if years ≤ 0 then present_value
  else present_value * (1 + rate) ^ years.toNat

/-- Corpus required at retirement (`calculate_corpus_for_retirement`):
present value of a growing annuity, with the near-equal-rates branch
taken when `|r - g| < 0.0001`, and the result floored at 0. -/
def calculate_corpus_for_retirement (annual_expense_at_retirement : ℚ)
    (return_rate : ℚ) (inflation_rate : ℚ) (retirement_duration : ℤ) : ℚ :=
  if retirement_duration ≤ 0 then 0
  else
    max 0
      (if |return_rate - inflation_rate| < 1/10000 then
        annual_expense_at_retirement * (retirement_duration : ℚ) / (1 + return_rate)
      else
        annual_expense_at_retirement *
          (1 - ((1 + inflation_rate) / (1 + return_rate)) ^ retirement_duration.toNat) /
          (return_rate - inflation_rate))

/-- Monthly SIP required to reach a future value
(`calculate_monthly_sip`): 0 for non-positive horizon or target,
straight line when the monthly rate is 0, otherwise the FV-annuity
payment formula. -/
def calculate_monthly_sip (future_value : ℚ) (annual_rate : ℚ) (years : ℤ) : ℚ :=
  if years ≤ 0 then 0
  else if future_value ≤ 0 then 0
  else
    let monthly_rate := annual_rate / 12
    let months : ℤ := years * 12
    if monthly_rate = 0 then future_value / (months : ℚ)
    else future_value * (monthly_rate / ((1 + monthly_rate) ^ months.toNat - 1))

/-- Rounds to a clean human-readable figure (`round_to_clean_figure`):
0 for non-positive amounts, nearest 1000 above 50000, nearest 500
otherwise.  The Python default argument `to_nearest=500` is inlined:
every call in the pipeline uses the default. -/
def round_to_clean_figure (amount : ℚ) : ℚ :=
  if amount ≤ 0 then 0
  else
    let to_nearest : ℤ := if 50000 < amount then 1000 else 500
    ((pyRound (amount / (to_nearest : ℚ)) * to_nearest : ℤ) : ℚ)

/-- Models the Python f-string `:.0f` format of a float value as the
decimal rendering of its round-half-to-even integer. -/
def fmt0f (q : ℚ) : String := toString (pyRound q)

/-- Assumption strings assembled by `calculate_retirement_plan`. -/
def plan_assumptions (inputs : RetirementInputs) (expected_return : ℚ) :
    List String :=
  ["Inflation rate: " ++ fmt0f (inputs.inflation_rate * 100) ++ "% per annum (locked)",
   "Expected investment return: " ++ fmt0f (expected_return * 100) ++
     "% per annum (" ++ inputs.risk_profile ++ " profile)",
   "Life expectancy: " ++ toString inputs.life_expectancy ++ " years",
   "Same return rate (" ++ fmt0f (expected_return * 100) ++
     "%) applied pre- and post-retirement",
   "Constant monthly SIP (no step-ups)",
   "No tax implications considered",
   "No product or fund recommendations included",
   "Figures are planning-level estimates, not precise forecasts"]

/-- Main calculation pipeline (`calculate_retirement_plan`), a direct
transcription of steps R3 through R13 of the source. -/
def calculate_retirement_plan (inputs : RetirementInputs) : RetirementResult :=
  let years_to_retirement := inputs.retirement_age - inputs.current_age
  let retirement_duration := inputs.life_expectancy - inputs.retirement_age
  let expected_return := get_return_rate inputs.risk_profile
  let future_annual_expenses :=
    calculate_future_value inputs.current_annual_expenses inputs.inflation_rate
      years_to_retirement
  let corpus_required :=
    calculate_corpus_for_retirement future_annual_expenses expected_return
      inputs.inflation_rate retirement_duration
  let future_investment_value :=
    calculate_future_value inputs.current_investments expected_return
      years_to_retirement
  let corpus_gap := max 0 (corpus_required - future_investment_value)
  let monthly_savings :=
    calculate_monthly_sip corpus_gap expected_return years_to_retirement
  let monthly_savings_rounded := round_to_clean_figure monthly_savings
  let income_expense_flag :=
    decide (0 < inputs.current_annual_income) &&
      decide (inputs.current_annual_income < inputs.current_annual_expenses)
  { current_age := inputs.current_age
    retirement_age := inputs.retirement_age
    life_expectancy := inputs.life_expectancy
    years_to_retirement := years_to_retirement
    retirement_duration := retirement_duration
    current_annual_expenses := inputs.current_annual_expenses
    future_annual_expenses := future_annual_expenses
    corpus_required := corpus_required
    future_investment_value := future_investment_value
    corpus_gap := corpus_gap
    monthly_savings_required := monthly_savings
    monthly_savings_rounded := monthly_savings_rounded
    expected_return_rate := expected_return
    inflation_rate := inputs.inflation_rate
    risk_profile := inputs.risk_profile
    current_annual_income := inputs.current_annual_income
    dependents := inputs.dependents
    income_expense_flag := income_expense_flag
    assumptions := plan_assumptions inputs expected_return }

/-- What-if scenario (`calculate_whatif_scenario`): rebuilds the input
record field by field with only the retirement age replaced, then runs
the full pipeline. -/
def calculate_whatif_scenario (base_inputs : RetirementInputs)
    (new_retirement_age : ℤ) : RetirementResult :=
  calculate_retirement_plan
    { current_age := base_inputs.current_age
      retirement_age := new_retirement_age
      life_expectancy := base_inputs.life_expectancy
      current_annual_expenses := base_inputs.current_annual_expenses
      current_investments := base_inputs.current_investments
      current_annual_income := base_inputs.current_annual_income
      risk_profile := base_inputs.risk_profile
      dependents := base_inputs.dependents
      inflation_rate := base_inputs.inflation_rate }

/-! ## Basic lemmas about the rounding primitive -/

/-- pyRound never falls below the floor of its argument. -/
theorem floor_le_pyRound (q : ℚ) : ⌊q⌋ ≤ pyRound q := by
  rw [pyRound]
  split_ifs <;> omega

/-- pyRound never exceeds the floor of its argument plus one. -/
theorem pyRound_le_floor_add_one (q : ℚ) : pyRound q ≤ ⌊q⌋ + 1 := by
  rw [pyRound]
  split_ifs <;> omega

/-- pyRound of a nonnegative rational is nonnegative. -/
theorem pyRound_nonneg (q : ℚ) (hq : 0 ≤ q) : 0 ≤ pyRound q :=
  le_trans (Int.floor_nonneg.mpr hq) (floor_le_pyRound q)

/-- pyRound lands within one half of its argument. -/
theorem pyRound_dist (q : ℚ) : |(pyRound q : ℚ) - q| ≤ 1/2 := by
  have hfl : (⌊q⌋ : ℚ) ≤ q := Int.floor_le q
  have hfu : q < (⌊q⌋ : ℚ) + 1 := Int.lt_floor_add_one q
  rw [pyRound]
  split_ifs with h1 h2 h3 <;> push_cast <;> rw [abs_le] <;> constructor <;> linarith

/-- pyRound of an integer is that integer. -/
theorem pyRound_intCast (n : ℤ) : pyRound (n : ℚ) = n := by
  have h : ((n:ℚ)) - ((n:ℤ) : ℚ) < 1/2 := by norm_num
  rw [pyRound, Int.floor_intCast, if_pos h]

/-- pyRound is bounded by any integer bound on its argument. -/
theorem pyRound_le_of_le (q : ℚ) (n : ℤ) (h : q ≤ (n : ℚ)) : pyRound q ≤ n := by
  rcases lt_or_eq_of_le (Int.floor_le_floor h) with hf | hf
  · have := pyRound_le_floor_add_one q
    rw [Int.floor_intCast] at hf
    omega
  · rw [Int.floor_intCast] at hf
    have hq : q = (n : ℚ) := le_antisymm h (by rw [← hf]; exact Int.floor_le q)
    rw [hq, pyRound_intCast]

/-- round_to_clean_figure never returns a negative amount. -/
theorem round_to_clean_figure_nonneg (amount : ℚ) :
    0 ≤ round_to_clean_figure amount := by
  simp only [round_to_clean_figure]
  split_ifs with h1 h2
  · exact le_rfl
  · have hq : (0:ℚ) ≤ amount / (1000:ℤ) := by
      push_neg at h1
      positivity
    have := pyRound_nonneg _ hq
    have : (0:ℤ) ≤ pyRound (amount / ((1000:ℤ):ℚ)) * 1000 := by positivity
    exact_mod_cast this
  · have hq : (0:ℚ) ≤ amount / (500:ℤ) := by
      push_neg at h1
      positivity
    have := pyRound_nonneg _ hq
    have : (0:ℤ) ≤ pyRound (amount / ((500:ℤ):ℚ)) * 500 := by positivity
    exact_mod_cast this

/-! ## C1 and C2: the two core formulas -/

/-- C1: calculate_corpus_for_retirement returns 0 for a non-positive
retirement duration; otherwise it returns the near-equal-rates form
pmt*n/(1+r) when the rates differ by less than 0.0001 and the growing
annuity form pmt*(1-((1+g)/(1+r))^n)/(r-g) otherwise, in both cases
floored at 0, so the result is never negative. -/
theorem corpus_formula_spec (pmt r g : ℚ) (n : ℤ) :
    calculate_corpus_for_retirement pmt r g n =
      (if n ≤ 0 then 0
       else if |r - g| < 1/10000 then max 0 (pmt * (n : ℚ) / (1 + r))
       else max 0 (pmt * (1 - ((1 + g) / (1 + r)) ^ n.toNat) / (r - g))) ∧
    0 ≤ calculate_corpus_for_retirement pmt r g n := by
  constructor
  · rw [calculate_corpus_for_retirement, apply_ite (max 0)]
  · rw [calculate_corpus_for_retirement]
    split_ifs <;> first
      | exact le_rfl
      | exact le_max_left 0 _

/-- C2: calculate_monthly_sip returns 0 when the horizon or the target
is non-positive; otherwise, with monthly rate i = r/12 and month count
m = 12*years, it returns fv/m when i = 0 and fv*i/((1+i)^m - 1)
otherwise. -/
theorem sip_formula_spec (fv r : ℚ) (years : ℤ) :
    calculate_monthly_sip fv r years =
      if years ≤ 0 ∨ fv ≤ 0 then 0
      else if r / 12 = 0 then fv / ((years : ℚ) * 12)
      else fv * (r / 12) / ((1 + r / 12) ^ (years * 12).toNat - 1) := by
  simp only [calculate_monthly_sip]
  by_cases h1 : years ≤ 0
  · simp [h1]
  · by_cases h2 : fv ≤ 0
    · simp [h1, h2]
    · rw [if_neg h1, if_neg h2, if_neg (not_or.mpr ⟨h1, h2⟩)]
      by_cases h3 : r / 12 = 0
      · rw [if_pos h3, if_pos h3]
        push_cast
        ring_nf
      · rw [if_neg h3, if_neg h3, mul_div_assoc]

/-! ## C6, C7, C8: pipeline-level facts -/

/-- C6: calculate_whatif_scenario equals the full pipeline run on the
base inputs with only the retirement age replaced, and replaying the
base retirement age reproduces the base result exactly. -/
theorem whatif_matches_plan (base : RetirementInputs) (a : ℤ) :
    calculate_whatif_scenario base a =
      calculate_retirement_plan { base with retirement_age := a } ∧
    calculate_whatif_scenario base base.retirement_age =
      calculate_retirement_plan base :=
  ⟨rfl, rfl⟩

/-- C7: the income flag holds exactly when a positive income is
exceeded by the expenses, and the income value influences no other
computed field: two inputs differing only in current_annual_income
agree on every result field except the flag and the echoed income. -/
theorem income_flag_advisory (inputs : RetirementInputs) (income2 : ℚ) :
    ((calculate_retirement_plan inputs).income_expense_flag = true ↔
      0 < inputs.current_annual_income ∧
        inputs.current_annual_income < inputs.current_annual_expenses) ∧
    ((calculate_retirement_plan { inputs with current_annual_income := income2 }).current_age =
        (calculate_retirement_plan inputs).current_age ∧
      (calculate_retirement_plan { inputs with current_annual_income := income2 }).retirement_age =
        (calculate_retirement_plan inputs).retirement_age ∧
      (calculate_retirement_plan { inputs with current_annual_income := income2 }).life_expectancy =
        (calculate_retirement_plan inputs).life_expectancy ∧
      (calculate_retirement_plan { inputs with current_annual_income := income2 }).years_to_retirement =
        (calculate_retirement_plan inputs).years_to_retirement ∧
      (calculate_retirement_plan { inputs with current_annual_income := income2 }).retirement_duration =
        (calculate_retirement_plan inputs).retirement_duration ∧
      (calculate_retirement_plan { inputs with current_annual_income := income2 }).current_annual_expenses =
        (calculate_retirement_plan inputs).current_annual_expenses ∧
      (calculate_retirement_plan { inputs with current_annual_income := income2 }).future_annual_expenses =
        (calculate_retirement_plan inputs).future_annual_expenses ∧
      (calculate_retirement_plan { inputs with current_annual_income := income2 }).corpus_required =
        (calculate_retirement_plan inputs).corpus_required ∧
      (calculate_retirement_plan { inputs with current_annual_income := income2 }).future_investment_value =
        (calculate_retirement_plan inputs).future_investment_value ∧
      (calculate_retirement_plan { inputs with current_annual_income := income2 }).corpus_gap =
        (calculate_retirement_plan inputs).corpus_gap ∧
      (calculate_retirement_plan { inputs with current_annual_income := income2 }).monthly_savings_required =
        (calculate_retirement_plan inputs).monthly_savings_required ∧
      (calculate_retirement_plan { inputs with current_annual_income := income2 }).monthly_savings_rounded =
        (calculate_retirement_plan inputs).monthly_savings_rounded ∧
      (calculate_retirement_plan { inputs with current_annual_income := income2 }).expected_return_rate =
        (calculate_retirement_plan inputs).expected_return_rate ∧
      (calculate_retirement_plan { inputs with current_annual_income := income2 }).inflation_rate =
        (calculate_retirement_plan inputs).inflation_rate ∧
      (calculate_retirement_plan { inputs with current_annual_income := income2 }).risk_profile =
        (calculate_retirement_plan inputs).risk_profile ∧
      (calculate_retirement_plan { inputs with current_annual_income := income2 }).dependents =
        (calculate_retirement_plan inputs).dependents ∧
      (calculate_retirement_plan { inputs with current_annual_income := income2 }).assumptions =
        (calculate_retirement_plan inputs).assumptions) := by
  constructor
  · simp only [calculate_retirement_plan, Bool.and_eq_true, decide_eq_true_eq]
  · exact ⟨rfl, rfl, rfl, rfl, rfl, rfl, rfl, rfl, rfl, rfl, rfl, rfl, rfl,
      rfl, rfl, rfl, rfl⟩

/-- C8: the corpus gap is exactly the shortfall floored at zero, hence
nonnegative, and the rounded monthly savings figure is nonnegative. -/
theorem plan_gap_invariant (inputs : RetirementInputs) :
    (calculate_retirement_plan inputs).corpus_gap =
      max 0 ((calculate_retirement_plan inputs).corpus_required -
        (calculate_retirement_plan inputs).future_investment_value) ∧
    0 ≤ (calculate_retirement_plan inputs).corpus_gap ∧
    0 ≤ (calculate_retirement_plan inputs).monthly_savings_rounded := by
  refine ⟨rfl, le_max_left 0 _, ?_⟩
  exact round_to_clean_figure_nonneg _

/-- Every risk-profile string resolves to one of the three documented
rates. -/
theorem get_return_rate_mem (s : String) :
    get_return_rate s = 8/100 ∨ get_return_rate s = 12/100 ∨
      get_return_rate s = 15/100 := by
  rw [get_return_rate]
  split_ifs <;> simp

/-- Every resolved return rate is strictly positive. -/
theorem get_return_rate_pos (s : String) : 0 < get_return_rate s := by
  rcases get_return_rate_mem s with h | h | h <;> rw [h] <;> norm_num

/-! ## Projection lemmas for the pipeline -/

/-- Unfolds the monthly savings field of the pipeline result. -/
theorem plan_msr_eq (inputs : RetirementInputs) :
    (calculate_retirement_plan inputs).monthly_savings_required =
      calculate_monthly_sip
        (max 0 (calculate_corpus_for_retirement
            (calculate_future_value inputs.current_annual_expenses
              inputs.inflation_rate (inputs.retirement_age - inputs.current_age))
            (get_return_rate inputs.risk_profile) inputs.inflation_rate
            (inputs.life_expectancy - inputs.retirement_age) -
          calculate_future_value inputs.current_investments
            (get_return_rate inputs.risk_profile)
            (inputs.retirement_age - inputs.current_age)))
        (get_return_rate inputs.risk_profile)
        (inputs.retirement_age - inputs.current_age) := rfl

/-- Unfolds the corpus field of the pipeline result. -/
theorem plan_corpus_eq (inputs : RetirementInputs) :
    (calculate_retirement_plan inputs).corpus_required =
      calculate_corpus_for_retirement
        (calculate_future_value inputs.current_annual_expenses
          inputs.inflation_rate (inputs.retirement_age - inputs.current_age))
        (get_return_rate inputs.risk_profile) inputs.inflation_rate
        (inputs.life_expectancy - inputs.retirement_age) := rfl

/-- Unfolds the rounded savings field of the pipeline result. -/
theorem plan_rounded_eq (inputs : RetirementInputs) :
    (calculate_retirement_plan inputs).monthly_savings_rounded =
      round_to_clean_figure
        ((calculate_retirement_plan inputs).monthly_savings_required) := rfl

/-- Future value of a nonnegative amount at a rate above -1 is
nonnegative. -/
theorem calculate_future_value_nonneg (pv rate : ℚ) (years : ℤ)
    (hpv : 0 ≤ pv) (hr : 0 ≤ 1 + rate) :
    0 ≤ calculate_future_value pv rate years := by
  rw [calculate_future_value]
  split_ifs
  · exact hpv
  · exact mul_nonneg hpv (pow_nonneg hr _)

/-! ## C4: the rounding policy -/

/-- Rounded value with unit u stays within u/2 of the amount. -/
theorem round_unit_dist (amount : ℚ) (u : ℤ) (hu : (0:ℚ) < (u:ℚ)) :
    |(((pyRound (amount / (u:ℚ)) * u : ℤ)) : ℚ) - amount| ≤ (u:ℚ) / 2 := by
  have h := pyRound_dist (amount / (u:ℚ))
  have hne : ((u:ℚ)) ≠ 0 := ne_of_gt hu
  have heq : (((pyRound (amount / (u:ℚ)) * u : ℤ)) : ℚ) - amount =
      ((pyRound (amount / (u:ℚ)) : ℚ) - amount / (u:ℚ)) * (u:ℚ) := by
    push_cast
    field_simp
  rw [heq, abs_mul, abs_of_pos hu]
  calc |(pyRound (amount / (u:ℚ)) : ℚ) - amount / (u:ℚ)| * (u:ℚ)
      ≤ (1/2) * (u:ℚ) := by gcongr
    _ = (u:ℚ) / 2 := by ring

/-- For amounts in (0, 50000] the rounded figure stays at most 50000. -/
theorem round_le_50000 (amount : ℚ) (h0 : 0 < amount) (h5 : amount ≤ 50000) :
    round_to_clean_figure amount ≤ 50000 := by
  simp only [round_to_clean_figure, if_neg (not_le.mpr h0), if_neg (not_lt.mpr h5)]
  have hb : pyRound (amount / ((500:ℤ):ℚ)) ≤ 100 := by
    apply pyRound_le_of_le
    rw [div_le_iff (by norm_num)]
    push_cast
    linarith
  have : (pyRound (amount / ((500:ℤ):ℚ)) * 500 : ℤ) ≤ 50000 := by omega
  exact_mod_cast this

/-- C4: round_to_clean_figure sends non-positive amounts to 0, amounts
in (0, 50000] to a nearest multiple of 500 and amounts above 50000 to a
nearest multiple of 1000; consequently the rounded monthly savings of
any plan is a multiple of 500 when it is at most 50000 and a multiple
of 1000 when it exceeds 50000. -/
theorem round_clean_spec (amount : ℚ) (inputs : RetirementInputs) :
    (amount ≤ 0 → round_to_clean_figure amount = 0) ∧
    (0 < amount → amount ≤ 50000 →
      (∃ k : ℤ, round_to_clean_figure amount = (k : ℚ) * 500) ∧
        |round_to_clean_figure amount - amount| ≤ 250) ∧
    (50000 < amount →
      (∃ k : ℤ, round_to_clean_figure amount = (k : ℚ) * 1000) ∧
        |round_to_clean_figure amount - amount| ≤ 500) ∧
    ((calculate_retirement_plan inputs).monthly_savings_rounded ≤ 50000 →
      ∃ k : ℤ, (calculate_retirement_plan inputs).monthly_savings_rounded =
        (k : ℚ) * 500) ∧
    (50000 < (calculate_retirement_plan inputs).monthly_savings_rounded →
      ∃ k : ℤ, (calculate_retirement_plan inputs).monthly_savings_rounded =
        (k : ℚ) * 1000) := by
  have main : ∀ a : ℚ,
      (a ≤ 0 → round_to_clean_figure a = 0) ∧
      (0 < a → a ≤ 50000 →
        (∃ k : ℤ, round_to_clean_figure a = (k : ℚ) * 500) ∧
          |round_to_clean_figure a - a| ≤ 250) ∧
      (50000 < a →
        (∃ k : ℤ, round_to_clean_figure a = (k : ℚ) * 1000) ∧
          |round_to_clean_figure a - a| ≤ 500) := by
    intro a
    refine ⟨fun h => by simp only [round_to_clean_figure, if_pos h], ?_, ?_⟩
    · intro h0 h5
      have hu : round_to_clean_figure a =
          (((pyRound (a / ((500:ℤ):ℚ)) * 500 : ℤ)) : ℚ) := by
        simp only [round_to_clean_figure, if_neg (not_le.mpr h0),
          if_neg (not_lt.mpr h5)]
      constructor
      · exact ⟨pyRound (a / ((500:ℤ):ℚ)), by rw [hu]; push_cast; ring⟩
      · rw [hu]
        have := round_unit_dist a 500 (by norm_num)
        calc |(((pyRound (a / ((500:ℤ):ℚ)) * 500 : ℤ)) : ℚ) - a|
            ≤ ((500:ℤ):ℚ) / 2 := this
          _ = 250 := by norm_num
    · intro h5
      have h0 : ¬ a ≤ 0 := by push_neg; linarith
      have hu : round_to_clean_figure a =
          (((pyRound (a / ((1000:ℤ):ℚ)) * 1000 : ℤ)) : ℚ) := by
        simp only [round_to_clean_figure, if_neg h0, if_pos h5]
      constructor
      · exact ⟨pyRound (a / ((1000:ℤ):ℚ)), by rw [hu]; push_cast; ring⟩
      · rw [hu]
        have := round_unit_dist a 1000 (by norm_num)
        calc |(((pyRound (a / ((1000:ℤ):ℚ)) * 1000 : ℤ)) : ℚ) - a|
            ≤ ((1000:ℤ):ℚ) / 2 := this
          _ = 500 := by norm_num
  refine ⟨(main amount).1, (main amount).2.1, (main amount).2.2, ?_, ?_⟩
  · intro _
    set m := (calculate_retirement_plan inputs).monthly_savings_required with hm
    rw [plan_rounded_eq]
    rcases le_or_lt m 0 with h | h
    · exact ⟨0, by rw [(main m).1 h]; norm_num⟩
    · rcases le_or_lt m 50000 with h5 | h5
      · exact ((main m).2.1 h h5).1
      · obtain ⟨k, hk⟩ := ((main m).2.2 h5).1
        exact ⟨k * 2, by rw [hk]; push_cast; ring⟩
  · intro hgt
    rw [plan_rounded_eq] at hgt ⊢
    set m := (calculate_retirement_plan inputs).monthly_savings_required with hm
    rcases le_or_lt m 0 with h | h
    · rw [(main m).1 h] at hgt
      norm_num at hgt
    · rcases le_or_lt m 50000 with h5 | h5
      · exact absurd hgt (not_lt.mpr (round_le_50000 m h h5))
      · exact ((main m).2.2 h5).1

/-! ## Concrete records and evaluation lemmas -/

/-- The moderate profile resolves to the 12 percent rate. -/
theorem get_return_rate_moderate : get_return_rate "moderate" = 12/100 := by
  rw [get_return_rate, if_neg (by decide), if_pos (by decide)]

/-- The rate difference used by the worked examples is not within the
near-equality tolerance. -/
theorem moderate_tolerance_miss : ¬ |(12/100 : ℚ) - 6/100| < 1/10000 := by
  rw [show (12/100 : ℚ) - 6/100 = 6/100 by norm_num,
    abs_of_nonneg (by norm_num)]
  norm_num

/-- A monthly SIP toward a zero target is zero. -/
theorem calculate_monthly_sip_zero_target (r : ℚ) (years : ℤ) :
    calculate_monthly_sip 0 r years = 0 := by
  rw [calculate_monthly_sip]
  split_ifs <;> simp_all

/-- Worked example of the repository test block: age 35, retire at 60,
live to 85, moderate profile. -/
def sample_inputs : RetirementInputs :=
  { current_age := 35
    retirement_age := 60
    life_expectancy := 85
    current_annual_expenses := 600000
    current_investments := 500000
    current_annual_income := 1200000
    risk_profile := "moderate"
    dependents := "self_spouse"
    inflation_rate := 6/100 }

/-- Record with the retirement age at or below the current age but a
positive retirement duration: the degenerate case C3 is wrong about. -/
def ex_degenerate : RetirementInputs :=
  { current_age := 60
    retirement_age := 50
    life_expectancy := 51
    current_annual_expenses := 600000
    current_investments := 0
    current_annual_income := 0
    risk_profile := "moderate"
    dependents := "self_spouse"
    inflation_rate := 6/100 }

/-- Record with both horizons degenerate, used by the C3 witness. -/
def ex_past_life : RetirementInputs :=
  { current_age := 30
    retirement_age := 70
    life_expectancy := 65
    current_annual_expenses := 400000
    current_investments := 100000
    current_annual_income := 0
    risk_profile := "aggressive"
    dependents := "children"
    inflation_rate := 6/100 }

/-- Record with a tiny positive required contribution, used by C9. -/
def ex_small : RetirementInputs :=
  { current_age := 59
    retirement_age := 60
    life_expectancy := 61
    current_annual_expenses := 1000
    current_investments := 0
    current_annual_income := 0
    risk_profile := "moderate"
    dependents := "self_spouse"
    inflation_rate := 6/100 }

/-- C3 counterexample: a record with retirement_age below current_age
whose corpus_required is nonzero. -/
theorem degenerate_corpus_cx :
    ex_degenerate.retirement_age ≤ ex_degenerate.current_age ∧
    (calculate_retirement_plan ex_degenerate).corpus_required ≠ 0 := by
  refine ⟨by decide, ?_⟩
  rw [plan_corpus_eq]
  show calculate_corpus_for_retirement
      (calculate_future_value 600000 (6/100) (50 - 60))
      (get_return_rate "moderate") (6/100) (51 - 50) ≠ 0
  rw [calculate_future_value, if_pos (by norm_num), get_return_rate_moderate,
    calculate_corpus_for_retirement, if_neg (by norm_num),
    if_neg moderate_tolerance_miss]
  have h1 : ((51 - 50 : ℤ)).toNat = 1 := by norm_num
  rw [h1, pow_one]
  rw [max_eq_right (by norm_num)]
  norm_num

/-- C3 (amended): with nonnegative current investments, degenerate
horizons give a zero monthly contribution, and the corpus is zero
whenever the payout window is non-positive. -/
theorem degenerate_horizon_zero (inputs : RetirementInputs)
    (hI : 0 ≤ inputs.current_investments)
    (h : inputs.retirement_age ≤ inputs.current_age ∨
      inputs.life_expectancy ≤ inputs.retirement_age) :
    (calculate_retirement_plan inputs).monthly_savings_required = 0 ∧
    (calculate_retirement_plan inputs).monthly_savings_rounded = 0 ∧
    (inputs.life_expectancy ≤ inputs.retirement_age →
      (calculate_retirement_plan inputs).corpus_required = 0) := by
  have hcor0 : inputs.life_expectancy ≤ inputs.retirement_age →
      (calculate_retirement_plan inputs).corpus_required = 0 := by
    intro hl
    rw [plan_corpus_eq, calculate_corpus_for_retirement, if_pos (by omega)]
  have hmsr : (calculate_retirement_plan inputs).monthly_savings_required = 0 := by
    rcases h with hra | hle
    · rw [plan_msr_eq, calculate_monthly_sip, if_pos (by omega)]
    · have hc : calculate_corpus_for_retirement
          (calculate_future_value inputs.current_annual_expenses
            inputs.inflation_rate (inputs.retirement_age - inputs.current_age))
          (get_return_rate inputs.risk_profile) inputs.inflation_rate
          (inputs.life_expectancy - inputs.retirement_age) = 0 := by
        rw [calculate_corpus_for_retirement, if_pos (by omega)]
      have hr := get_return_rate_pos inputs.risk_profile
      have hfiv : 0 ≤ calculate_future_value inputs.current_investments
          (get_return_rate inputs.risk_profile)
          (inputs.retirement_age - inputs.current_age) :=
        calculate_future_value_nonneg _ _ _ hI (by linarith)
      rw [plan_msr_eq, hc]
      rw [max_eq_left (by linarith), calculate_monthly_sip_zero_target]
  refine ⟨hmsr, ?_, hcor0⟩
  rw [plan_rounded_eq, hmsr, round_to_clean_figure, if_pos le_rfl]

/-- C3 witness: the amended statement evaluated on a record whose life
expectancy falls at or below its retirement age. -/
theorem degenerate_horizon_zero_witness :
    (calculate_retirement_plan ex_past_life).monthly_savings_required = 0 ∧
    (calculate_retirement_plan ex_past_life).monthly_savings_rounded = 0 ∧
    (ex_past_life.life_expectancy ≤ ex_past_life.retirement_age →
      (calculate_retirement_plan ex_past_life).corpus_required = 0) :=
  degenerate_horizon_zero ex_past_life (by norm_num [ex_past_life])
    (Or.inr (by decide))

/-- C9: any amount strictly between 0 and 250 rounds to 0, and the
ex_small plan has a strictly positive exact contribution whose rounded
public figure is 0. -/
theorem round_away_small :
    (∀ amount : ℚ, 0 < amount → amount < 250 →
      round_to_clean_figure amount = 0) ∧
    0 < (calculate_retirement_plan ex_small).monthly_savings_required ∧
    (calculate_retirement_plan ex_small).monthly_savings_rounded = 0 := by
  have hsmall : ∀ amount : ℚ, 0 < amount → amount < 250 →
      round_to_clean_figure amount = 0 := by
    intro a h0 h250
    have hfl : ⌊a / ((500:ℤ):ℚ)⌋ = 0 := by
      rw [Int.floor_eq_iff]
      push_cast
      constructor
      · positivity
      · rw [div_lt_iff (by norm_num)]
        linarith
    have hpr : pyRound (a / ((500:ℤ):ℚ)) = 0 := by
      rw [pyRound, hfl, if_pos]
      push_cast
      rw [sub_zero, div_lt_iff (by norm_num)]
      linarith
    simp only [round_to_clean_figure, if_neg (not_le.mpr h0),
      if_neg (not_lt.mpr (by linarith : a ≤ 50000)), hpr]
    norm_num
  have hmsr_eq : (calculate_retirement_plan ex_small).monthly_savings_required =
      6625/7 * (12/100/12 / ((1 + 12/100/12) ^ 12 - 1)) := by
    rw [plan_msr_eq]
    show calculate_monthly_sip
        (max 0 (calculate_corpus_for_retirement
            (calculate_future_value 1000 (6/100) (60 - 59))
            (get_return_rate "moderate") (6/100) (61 - 60) -
          calculate_future_value 0 (get_return_rate "moderate") (60 - 59))) 
        (get_return_rate "moderate") (60 - 59) = _
    have e1 : calculate_future_value 1000 (6/100) (60 - 59 : ℤ) = 1060 := by
      rw [calculate_future_value, if_neg (by norm_num),
        show ((60 - 59 : ℤ)).toNat = 1 from by norm_num, pow_one]
      norm_num
    have e2 : calculate_future_value 0 (get_return_rate "moderate")
        (60 - 59 : ℤ) = 0 := by
      rw [calculate_future_value, if_neg (by norm_num), zero_mul]
    have e3 : calculate_corpus_for_retirement 1060 (get_return_rate "moderate")
        (6/100) (61 - 60 : ℤ) = 6625/7 := by
      rw [get_return_rate_moderate, calculate_corpus_for_retirement,
        if_neg (by norm_num), if_neg moderate_tolerance_miss,
        show ((61 - 60 : ℤ)).toNat = 1 from by norm_num, pow_one,
        max_eq_right (by norm_num)]
      norm_num
    rw [e1, e2, e3, get_return_rate_moderate]
    simp only [calculate_monthly_sip]
    rw [if_neg (by norm_num : ¬(60 - 59 : ℤ) ≤ 0),
      if_neg (by norm_num : ¬ max (0:ℚ) (6625/7 - 0) ≤ 0),
      if_neg (by norm_num : ¬(12/100/12 : ℚ) = 0),
      show (((60 - 59) * 12 : ℤ)).toNat = 12 from rfl,
      max_eq_right (by norm_num : (0:ℚ) ≤ 6625/7 - 0),
      show (6625/7 - 0 : ℚ) = 6625/7 from by norm_num]
  refine ⟨hsmall, ?_, ?_⟩
  · rw [hmsr_eq]
    norm_num
  · rw [plan_rounded_eq]
    apply hsmall
    · rw [hmsr_eq]
      norm_num
    · rw [hmsr_eq]
      norm_num

/-- C9 witness: the universally quantified part of round_away_small
evaluated at the amount 100. -/
theorem round_away_small_witness : round_to_clean_figure 100 = 0 :=
  round_away_small.1 100 (by norm_num) (by norm_num)

/-- C10: every risk-profile string resolves to one of the rates 0.08,
0.12 or 0.15, so the monthly rate of any SIP invocation is nonzero, the
straight-line branch is never taken on a positive horizon and target,
and the compound-branch denominator is nonzero; the pipeline invokes
the SIP formula on exactly this resolved rate. -/
theorem sip_branch_unreachable (s : String) :
    (get_return_rate s = 8/100 ∨ get_return_rate s = 12/100 ∨
      get_return_rate s = 15/100) ∧
    get_return_rate s / 12 ≠ 0 ∧
    (∀ (fv : ℚ) (years : ℤ), 0 < years → 0 < fv →
      (1 + get_return_rate s / 12) ^ (years * 12).toNat - 1 ≠ 0 ∧
      calculate_monthly_sip fv (get_return_rate s) years =
        fv * (get_return_rate s / 12) /
          ((1 + get_return_rate s / 12) ^ (years * 12).toNat - 1)) ∧
    (∀ inp : RetirementInputs,
      (calculate_retirement_plan inp).monthly_savings_required =
        calculate_monthly_sip (calculate_retirement_plan inp).corpus_gap
          (get_return_rate inp.risk_profile)
          (inp.retirement_age - inp.current_age)) := by
  have hpos := get_return_rate_pos s
  have hi : 0 < get_return_rate s / 12 := by positivity
  refine ⟨get_return_rate_mem s, ne_of_gt hi, ?_, fun inp => rfl⟩
  intro fv years hy hfv
  have hm : (years * 12).toNat ≠ 0 := by omega
  have hden : 1 < (1 + get_return_rate s / 12) ^ (years * 12).toNat :=
    one_lt_pow₀ (by linarith) hm
  refine ⟨by linarith, ?_⟩
  simp only [calculate_monthly_sip]
  rw [if_neg (not_le.mpr hy), if_neg (not_le.mpr hfv),
    if_neg (ne_of_gt hi), mul_div_assoc]

/-- C10 witness: the branch facts instantiated at the aggressive
profile with a one-year horizon and unit target. -/
theorem sip_branch_unreachable_witness :
    (1 + get_return_rate "aggressive" / 12) ^ (((1:ℤ) * 12)).toNat - 1 ≠ 0 ∧
    calculate_monthly_sip 1 (get_return_rate "aggressive") 1 =
      1 * (get_return_rate "aggressive" / 12) /
        ((1 + get_return_rate "aggressive" / 12) ^ (((1:ℤ) * 12)).toNat - 1) :=
  (sip_branch_unreachable "aggressive").2.2.1 1 1 (by norm_num) (by norm_num)

/-- Record of the flag scenario in the spec: expenses 800000 exceed the
positive income 600000. -/
def ex_flag : RetirementInputs :=
  { current_age := 35
    retirement_age := 60
    life_expectancy := 85
    current_annual_expenses := 800000
    current_investments := 0
    current_annual_income := 600000
    risk_profile := "moderate"
    dependents := "self_spouse"
    inflation_rate := 6/100 }

/-- C7 witness: the flag characterisation applied to the spec's flag
scenario record. -/
theorem income_flag_advisory_witness :
    (calculate_retirement_plan ex_flag).income_expense_flag = true :=
  ((income_flag_advisory ex_flag 0).1).mpr (by norm_num [ex_flag])

/-- C4 witness: the nearest-multiple clause applied at the amount 700,
which rounds to 500. -/
theorem round_clean_spec_witness :
    (∃ k : ℤ, round_to_clean_figure 700 = (k : ℚ) * 500) ∧
    |round_to_clean_figure 700 - 700| ≤ 250 :=
  (round_clean_spec 700 sample_inputs).2.1 (by norm_num) (by norm_num)

/-! ## C5: monotonicity in the retirement age -/

/-- Facts about the resolved rate versus the locked 6 percent
inflation: the rate is strictly larger, outside the near-equality
tolerance, and dominated by its compounded monthly version. -/
theorem rate_facts (s : String) :
    6/100 < get_return_rate s ∧
    ¬ |get_return_rate s - 6/100| < 1/10000 ∧
    1 + get_return_rate s ≤ (1 + get_return_rate s / 12) ^ 12 := by
  rcases get_return_rate_mem s with h | h | h <;> rw [h] <;>
    exact ⟨by norm_num, by rw [abs_of_nonneg (by norm_num)]; norm_num,
      by norm_num⟩

/-- Monthly SIP of a nonnegative target at a positive rate is
nonnegative. -/
theorem calculate_monthly_sip_nonneg (G r : ℚ) (y : ℤ)
    (hG : 0 ≤ G) (hr : 0 < r) : 0 ≤ calculate_monthly_sip G r y := by
  simp only [calculate_monthly_sip]
  split_ifs with h1 h2 h3
  · exact le_rfl
  · exact le_rfl
  · field_simp at h3
    linarith
  · have h1i : 1 < 1 + r / 12 := by
      have : 0 < r / 12 := by positivity
      linarith
    have hD : 0 < (1 + r / 12) ^ ((y * 12).toNat) - 1 := by
      have := one_lt_pow₀ h1i (show (y * 12).toNat ≠ 0 by omega)
      linarith
    exact mul_nonneg hG (le_of_lt (div_pos (by positivity) hD))

/-- One-step comparison for the SIP formula: a one-year-longer horizon
compensates a target inflated by at most the factor (1+r). -/
theorem sip_le_step (G G2 r : ℚ) (y : ℤ)
    (hy : 1 ≤ y) (hr_pos : 0 < r)
    (hr12 : 1 + r ≤ (1 + r / 12) ^ 12)
    (hG : 0 ≤ G) (hG2 : 0 ≤ G2)
    (hle : G2 ≤ (1 + r) * G) :
    calculate_monthly_sip G2 r (y + 1) ≤ calculate_monthly_sip G r y := by
  rcases le_or_lt G 0 with hGz | hGz
  · have hGe : G = 0 := le_antisymm hGz hG
    have hG2e : G2 = 0 := le_antisymm (by rw [hGe] at hle; linarith) hG2
    rw [hGe, hG2e, calculate_monthly_sip_zero_target,
      calculate_monthly_sip_zero_target]
  · rcases le_or_lt G2 0 with hG2z | hG2z
    · have hL : calculate_monthly_sip G2 r (y + 1) = 0 := by
        simp only [calculate_monthly_sip]
        rw [if_neg (by omega : ¬ y + 1 ≤ 0), if_pos hG2z]
      rw [hL]
      exact calculate_monthly_sip_nonneg G r y hG hr_pos
    · have hi : 0 < r / 12 := by positivity
      have h1i : 1 < 1 + r / 12 := by linarith
      have hm : ((y + 1) * 12).toNat = (y * 12).toNat + 12 := by omega
      have hA : 1 < (1 + r / 12) ^ ((y * 12).toNat) :=
        one_lt_pow₀ h1i (by omega)
      have hD : 0 < (1 + r / 12) ^ ((y * 12).toNat) - 1 := by linarith
      have hD2 : 0 < (1 + r / 12) ^ (((y + 1) * 12).toNat) - 1 := by
        have := one_lt_pow₀ h1i (show (((y + 1) * 12)).toNat ≠ 0 by omega)
        linarith
      have hkey : (1 + r) * ((1 + r / 12) ^ ((y * 12).toNat) - 1) ≤
          (1 + r / 12) ^ (((y + 1) * 12).toNat) - 1 := by
        rw [hm, pow_add]
        nlinarith [hA, hr12, hr_pos]
      have hdiv : (1 + r) / ((1 + r / 12) ^ (((y + 1) * 12).toNat) - 1) ≤
          1 / ((1 + r / 12) ^ ((y * 12).toNat) - 1) := by
        rw [div_le_div_iff hD2 hD]
        linarith
      simp only [calculate_monthly_sip]
      rw [if_neg (by omega : ¬ y + 1 ≤ 0), if_neg (not_le.mpr hG2z),
        if_neg (ne_of_gt hi), if_neg (by omega : ¬ y ≤ 0),
        if_neg (not_le.mpr hGz), if_neg (ne_of_gt hi)]
      calc G2 * (r / 12 / ((1 + r / 12) ^ (((y + 1) * 12)).toNat - 1))
          ≤ ((1 + r) * G) * (r / 12 / ((1 + r / 12) ^ (((y + 1) * 12)).toNat - 1)) := by
            apply mul_le_mul_of_nonneg_right hle
            exact le_of_lt (div_pos hi hD2)
        _ = (G * (r / 12)) * ((1 + r) / ((1 + r / 12) ^ (((y + 1) * 12)).toNat - 1)) := by
            ring
        _ ≤ (G * (r / 12)) * (1 / ((1 + r / 12) ^ ((y * 12)).toNat - 1)) := by
            apply mul_le_mul_of_nonneg_left hdiv
            positivity
        _ = G * (r / 12 / ((1 + r / 12) ^ ((y * 12)).toNat - 1)) := by
            ring

/-- One-step monotonicity of the assembled pipeline contribution in
the retirement age, stated over the raw pipeline components. -/
theorem sip_pipeline_step (E I r : ℚ) (c L a : ℤ)
    (hE : 0 ≤ E) (hI : 0 ≤ I)
    (hgr : 6/100 < r)
    (htol : ¬ |r - 6/100| < 1/10000)
    (hr12 : 1 + r ≤ (1 + r / 12) ^ 12)
    (h1 : c < a) (h2 : a + 1 < L) :
    calculate_monthly_sip
      (max 0 (calculate_corpus_for_retirement
          (calculate_future_value E (6/100) (a + 1 - c)) r (6/100) (L - (a + 1)) -
        calculate_future_value I r (a + 1 - c))) r (a + 1 - c) ≤
    calculate_monthly_sip
      (max 0 (calculate_corpus_for_retirement
          (calculate_future_value E (6/100) (a - c)) r (6/100) (L - a) -
        calculate_future_value I r (a - c))) r (a - c) := by
  have hr_pos : (0:ℚ) < r := by linarith
  have h1r : (0:ℚ) < 1 + r := by linarith
  have hrg : (0:ℚ) < r - 6/100 := by linarith
  set x : ℚ := (1 + 6/100) / (1 + r) with hxdef
  have hx0 : 0 ≤ x := by positivity
  have hx1 : x ≤ 1 := by
    rw [hxdef, div_le_one h1r]
    linarith
  have hxr : (1 + 6/100 : ℚ) = (1 + r) * x := by
    rw [hxdef]
    field_simp
    ring
  set pmt : ℚ := calculate_future_value E (6/100) (a - c) with hpmtdef
  set fiv : ℚ := calculate_future_value I r (a - c) with hfivdef
  have hpmt0 : 0 ≤ pmt := by
    rw [hpmtdef]
    exact calculate_future_value_nonneg _ _ _ hE (by norm_num)
  have hfiv0 : 0 ≤ fiv := by
    rw [hfivdef]
    exact calculate_future_value_nonneg _ _ _ hI (by linarith)
  have hfae : calculate_future_value E (6/100) (a + 1 - c) =
      (1 + 6/100) * pmt := by
    rw [hpmtdef, calculate_future_value, calculate_future_value,
      if_neg (by omega), if_neg (by omega),
      show (a + 1 - c).toNat = (a - c).toNat + 1 from by omega, pow_succ]
    ring
  have hfiv : calculate_future_value I r (a + 1 - c) = (1 + r) * fiv := by
    rw [hfivdef, calculate_future_value, calculate_future_value,
      if_neg (by omega), if_neg (by omega),
      show (a + 1 - c).toNat = (a - c).toNat + 1 from by omega, pow_succ]
    ring
  have hxpow : ∀ k : ℕ, (0:ℚ) ≤ 1 - x ^ k := fun k =>
    sub_nonneg.mpr (pow_le_one₀ hx0 hx1)
  have hcorp_a : calculate_corpus_for_retirement pmt r (6/100) (L - a) =
      pmt * (1 - x ^ (L - a).toNat) / (r - 6/100) := by
    rw [calculate_corpus_for_retirement, if_neg (by omega), if_neg htol,
      ← hxdef]
    exact max_eq_right
      (div_nonneg (mul_nonneg hpmt0 (hxpow _)) (le_of_lt hrg))
  have hcorp_a1 : calculate_corpus_for_retirement ((1 + 6/100) * pmt) r
        (6/100) (L - (a + 1)) =
      (1 + 6/100) * pmt * (1 - x ^ (L - (a + 1)).toNat) / (r - 6/100) := by
    rw [calculate_corpus_for_retirement, if_neg (by omega), if_neg htol,
      ← hxdef]
    exact max_eq_right
      (div_nonneg (mul_nonneg (mul_nonneg (by norm_num) hpmt0) (hxpow _))
        (le_of_lt hrg))
  have hd : (L - a).toNat = (L - (a + 1)).toNat + 1 := by omega
  have hnum : (1 + 6/100) * pmt * (1 - x ^ (L - (a + 1)).toNat) ≤
      (1 + r) * (pmt * (1 - x ^ (L - a).toNat)) := by
    have hxd : x ^ (L - a).toNat = x ^ (L - (a + 1)).toNat * x := by
      rw [hd, pow_succ]
    calc (1 + 6/100) * pmt * (1 - x ^ (L - (a + 1)).toNat)
        = (1 + r) * pmt * (x - x ^ (L - a).toNat) := by
          rw [hxr, hxd]
          ring
      _ ≤ (1 + r) * pmt * (1 - x ^ (L - a).toNat) := by
          apply mul_le_mul_of_nonneg_left (by linarith)
          exact mul_nonneg (le_of_lt h1r) hpmt0
      _ = (1 + r) * (pmt * (1 - x ^ (L - a).toNat)) := by ring
  have hcorpkey : calculate_corpus_for_retirement ((1 + 6/100) * pmt) r
        (6/100) (L - (a + 1)) ≤
      (1 + r) * calculate_corpus_for_retirement pmt r (6/100) (L - a) := by
    rw [hcorp_a, hcorp_a1]
    have hmul := mul_le_mul_of_nonneg_right hnum
      (le_of_lt (inv_pos.mpr hrg))
    calc (1 + 6/100) * pmt * (1 - x ^ (L - (a + 1)).toNat) / (r - 6/100)
        = (1 + 6/100) * pmt * (1 - x ^ (L - (a + 1)).toNat) * (r - 6/100)⁻¹ := by
          rw [div_eq_mul_inv]
      _ ≤ (1 + r) * (pmt * (1 - x ^ (L - a).toNat)) * (r - 6/100)⁻¹ := hmul
      _ = (1 + r) * (pmt * (1 - x ^ (L - a).toNat) / (r - 6/100)) := by
          rw [div_eq_mul_inv]
          ring
  rw [hfae, hfiv]
  set C : ℚ := calculate_corpus_for_retirement pmt r (6/100) (L - a)
  set C2 : ℚ := calculate_corpus_for_retirement ((1 + 6/100) * pmt) r
    (6/100) (L - (a + 1))
  have hsub : C2 - (1 + r) * fiv ≤ (1 + r) * (C - fiv) := by
    have hexp : (1 + r) * (C - fiv) = (1 + r) * C - (1 + r) * fiv := by ring
    rw [hexp]
    linarith [hcorpkey]
  have hG2le : max 0 (C2 - (1 + r) * fiv) ≤ (1 + r) * max 0 (C - fiv) := by
    calc max 0 (C2 - (1 + r) * fiv) ≤ max 0 ((1 + r) * (C - fiv)) :=
        max_le_max le_rfl hsub
      _ = (1 + r) * max 0 (C - fiv) := by
        rw [mul_max_of_nonneg _ _ (le_of_lt h1r), mul_zero]
  have hstep : a + 1 - c = (a - c) + 1 := by ring
  rw [hstep]
  exact sip_le_step (max 0 (C - fiv)) (max 0 (C2 - (1 + r) * fiv)) r (a - c)
    (by omega) hr_pos hr12 (le_max_left _ _) (le_max_left _ _) hG2le

/-- One-step monotonicity at the record level: raising the retirement
age by one year never raises the required monthly contribution. -/
theorem plan_msr_age_step (inp : RetirementInputs) (a : ℤ)
    (hg : inp.inflation_rate = 6/100)
    (hE : 0 ≤ inp.current_annual_expenses)
    (hI : 0 ≤ inp.current_investments)
    (h1 : inp.current_age < a) (h2 : a + 1 < inp.life_expectancy) :
    (calculate_retirement_plan
      { inp with retirement_age := a + 1 }).monthly_savings_required ≤
    (calculate_retirement_plan
      { inp with retirement_age := a }).monthly_savings_required := by
  obtain ⟨hgr, htol, hr12⟩ := rate_facts inp.risk_profile
  rw [plan_msr_eq, plan_msr_eq]
  dsimp only
  rw [hg]
  exact sip_pipeline_step inp.current_annual_expenses inp.current_investments
    (get_return_rate inp.risk_profile) inp.current_age inp.life_expectancy a
    hE hI hgr htol hr12 h1 h2

/-- C5: holding every other field fixed (with the documented domain:
inflation locked at 6 percent, nonnegative expenses and investments),
a later retirement age that still lies strictly between the current age
and the life expectancy never increases the exact required monthly
contribution. -/
theorem msr_monotone_in_retirement_age (inp : RetirementInputs) (a a2 : ℤ)
    (hg : inp.inflation_rate = 6/100)
    (hE : 0 ≤ inp.current_annual_expenses)
    (hI : 0 ≤ inp.current_investments)
    (h1 : inp.current_age < a) (h2 : a < a2) (h3 : a2 < inp.life_expectancy) :
    (calculate_retirement_plan
      { inp with retirement_age := a2 }).monthly_savings_required ≤
    (calculate_retirement_plan
      { inp with retirement_age := a }).monthly_savings_required := by
  have key : ∀ k : ℕ, ∀ b : ℤ, inp.current_age < b →
      b + (k : ℤ) < inp.life_expectancy →
      (calculate_retirement_plan
        { inp with retirement_age := b + (k : ℤ) }).monthly_savings_required ≤
      (calculate_retirement_plan
        { inp with retirement_age := b }).monthly_savings_required := by
    intro k
    induction k with
    | zero =>
        intro b hb hbL
        norm_num
    | succ n ih =>
        intro b hb hbL
        have e : b + ((n + 1 : ℕ) : ℤ) = (b + 1) + (n : ℤ) := by
          push_cast
          ring
        have hb1L : b + 1 < inp.life_expectancy := by
          push_cast at hbL
          omega
        calc (calculate_retirement_plan
              { inp with retirement_age := b + ((n + 1 : ℕ) : ℤ) }).monthly_savings_required
            = (calculate_retirement_plan
              { inp with retirement_age := (b + 1) + (n : ℤ) }).monthly_savings_required := by
              rw [e]
          _ ≤ (calculate_retirement_plan
              { inp with retirement_age := b + 1 }).monthly_savings_required := by
              apply ih (b + 1) (by omega)
              push_cast at hbL ⊢
              omega
          _ ≤ (calculate_retirement_plan
              { inp with retirement_age := b }).monthly_savings_required :=
              plan_msr_age_step inp b hg hE hI hb hb1L
  have hk : a2 = a + ((a2 - a).toNat : ℤ) := by omega
  rw [hk]
  exact key (a2 - a).toNat a h1 (by omega)

/-- C5 witness: the monotonicity theorem applied to the worked sample
record at retirement ages 60 and 61. -/
theorem msr_monotone_witness :
    (calculate_retirement_plan
      { sample_inputs with retirement_age := 61 }).monthly_savings_required ≤
    (calculate_retirement_plan
      { sample_inputs with retirement_age := 60 }).monthly_savings_required :=
  msr_monotone_in_retirement_age sample_inputs 60 61 rfl
    (by norm_num [sample_inputs]) (by norm_num [sample_inputs])
    (by norm_num [sample_inputs]) (by norm_num) (by norm_num [sample_inputs])
